import Mathlib

/-!
# Verification of the chatroom server's connection registry and broadcast engine

This file is a shallow embedding, in Lean 4, of the registry/broadcast core of
a TCP chatroom server (files `server.py` and `chatroom.py`).  Connections
(Python `socket.socket` objects) are modelled by natural-number identifiers;
the registry `Server.client_map : dict[socket, str]` is modelled by an
association list with the key semantics of a Python `dict` (assignment updates
an existing key in place, otherwise appends; `pop` removes the key).  Wall
clock timestamps (`Server.time_now`) are threaded as an opaque string
parameter `ts`.  Network sends are recorded as `(recipient, message)` pairs;
a send that the peer side makes fail is driven by an explicit `fails`
predicate where the claim under study concerns I/O failure.
-/

set_option autoImplicit false

namespace Chatroom

/-- `Server.MAX_CLIENTS` (server.py line 18). -/
def MAX_CLIENTS : Nat := 100

/-- `Server.MAX_USERNAME_SIZE` (server.py line 23). -/
def MAX_USERNAME_SIZE : Nat := 20

/-- `Server.MAX_CLIENTS_REACHED_MSG` (server.py lines 19-22).  The two
adjacent Python string literals concatenate with no separating space. -/
def MAX_CLIENTS_REACHED_MSG : String :=
  "Server has reached the maximum amount of clients.Please try again later."

/-- `Server.WELCOME_MSG` (server.py line 26). -/
def WELCOME_MSG : String := "Welcome to Link's Chatroom!"

/-- A connection identifier: stands for one `socket.socket` object.
Python compares them by identity (`is`), modelled by equality on `Nat`. -/
abbrev Conn := Nat

/-- The registry `Server.client_map : dict[socket.socket, str]`, as an
association list from connection to username.  List order is Python dict
insertion order. -/
abbrev Registry := List (Conn × String)

/-- The keys of the registry (`client_map.keys()`). -/
def regKeys (reg : Registry) : List Conn := reg.map Prod.fst

/-- Python `client_map.get(c)` / `client_map[c]`: the username bound to a
connection, if present. -/
def lookupKey (reg : Registry) (c : Conn) : Option String :=
  (reg.find? (fun p => p.1 == c)).map Prod.snd

/-- Python `client_map.pop(c, None)`, restricted to its effect on the map:
the entry with key `c` is removed.  (A Python dict holds each key at most
once; on duplicate-free lists `filter` removes exactly that entry.) -/
def removeKey (reg : Registry) (c : Conn) : Registry :=
  reg.filter (fun p => p.1 != c)

/-- Python `client_map[c] = u`: update the value in place if the key is
present (keeping its position), otherwise append the new binding. -/
def insertKey (reg : Registry) (c : Conn) (u : String) : Registry :=
  if (lookupKey reg c).isSome then
    reg.map (fun p => if p.1 == c then (c, u) else p)
  else
    reg ++ [(c, u)]

/-- `Server.is_there_room` (server.py lines 124-128). -/
def is_there_room (reg : Registry) : Bool :=
  reg.length < MAX_CLIENTS

/-- `Server.add_client` (server.py lines 49-58): under the caller-held lock,
if `len(client_map) < MAX_CLIENTS` insert the binding and return `True`,
else return `False` without touching the map.  Returns the flag together
with the updated registry. -/
def add_client (reg : Registry) (client : Conn) (username : String) :
    Bool × Registry :=
  if reg.length < MAX_CLIENTS then
    (true, insertKey reg client username)
  else
    (false, reg)

/-- The leave notice `f"{time_now()} {username} has disconnected."`
(server.py line 116). -/
def leaveMsg (ts username : String) : String :=
  ts ++ " " ++ username ++ " has disconnected."

/-- The join notice `f"{time_now()} {client_map[client]} has entered the
chat."` (server.py lines 151-152). -/
def joinMsg (ts username : String) : String :=
  ts ++ " " ++ username ++ " has entered the chat."

/-- The relayed chat line `f"{time_now()} {username}: {msg}"`
(chatroom.py line 56). -/
def chatLine (ts username text : String) : String :=
  ts ++ " " ++ username ++ ": " ++ text

/-- The private welcome line `f"{time_now()} {WELCOME_MSG}\nUsername is
{username}"` (server.py line 177). -/
def welcomeMsg (ts username : String) : String :=
  ts ++ " " ++ WELCOME_MSG ++ "\nUsername is " ++ username

/-- The `errno` values distinguished by the teardown code: `ENOTCONN` and
`EBADF` are swallowed, anything else is re-raised (server.py lines 101-105). -/
inductive Errno where
  | enotconn
  | ebadf
  | other
deriving DecidableEq, Repr

/-- The outcome of `client.shutdown(socket.SHUT_RDWR)`: `none` means it
returned normally, `some e` means it raised `OSError` with `errno = e`. -/
abbrev ShutdownOutcome := Option Errno

/-- Whether a shutdown outcome is tolerated by `disconnect_client`:
no error, or an `OSError` whose errno is `ENOTCONN` or `EBADF`
(server.py line 104). -/
def benignShutdown : ShutdownOutcome → Bool
  | none => true
  | some .enotconn => true
  | some .ebadf => true
  | some .other => false

/-- The observable result of one `Server.disconnect_client` call:
the registry after the `pop`, the leave notices actually sent, and whether
the call re-raised the shutdown `OSError`. -/
structure DisconnectResult where
  registry : Registry
  sent : List (Conn × String)
  raised : Bool
deriving DecidableEq, Repr

/-- `Server.disconnect_client` (server.py lines 98-121), with the socket
writes of the leave fan-out assumed to succeed (the fan-out under write
failure is modelled separately by `leave_broadcast`).  Order is the
source's: first `client_map.pop(client, None)`, then
`client.shutdown(SHUT_RDWR)` — re-raising unless the `OSError` errno is
`ENOTCONN` or `EBADF`, with `close()` suppressed either way — then, only
when the popped username is truthy (not `None` and not the empty string),
one `sendall` of the leave notice to every connection still in the map. -/
def disconnect_client (reg : Registry) (client : Conn) (ts : String)
    (serr : ShutdownOutcome) : DisconnectResult :=
  let username := lookupKey reg client
  let reg' := removeKey reg client
  if !(benignShutdown serr) then
    ⟨reg', [], true⟩
  else
    match username with
    | none => ⟨reg', [], false⟩
    | some u =>
      if u = "" then
        ⟨reg', [], false⟩
      else
        ⟨reg', reg'.map (fun p => (p.1, leaveMsg ts u)), false⟩

/-- A byte, as produced by `socket.recv`. -/
abbrev Byte := Fin 256

/-- Decoding a byte string with the server's codec `ISO-8859-1`
(`data.decode('ISO-8859-1')`).  In that codec every byte maps to the Unicode
code point of the same value, so decoding is total on bytes. -/
def latin1Decode (data : List Byte) : List Char :=
  data.map (fun b => Char.ofNat b.val)

/-- Python `bytes.decode` as a fallible operation on arbitrary numeric
values: it yields a string exactly when every value is a byte below 256
(for `ISO-8859-1` this always holds of real socket data, so the partiality
is never exercised). -/
def latin1DecodeBytes (data : List Nat) : Option (List Char) :=
  if data.all (fun b => b < 256) then
    some (data.map Char.ofNat)
  else
    none

/-- Python `str.isspace()` restricted to the Latin-1 range reachable from
`ISO-8859-1` decoding: space, `\t` `\n` `\v` `\f` `\r` (9-13), the file
separators 28-31, next-line 0x85 and no-break space 0xA0. -/
def pyIsSpace (c : Char) : Bool :=
  c.toNat == 32 || (9 ≤ c.toNat && c.toNat ≤ 13) ||
    (28 ≤ c.toNat && c.toNat ≤ 31) || c.toNat == 133 || c.toNat == 160

/-- Python `str.strip()` with no arguments: drop leading and trailing
whitespace characters. -/
def pyStrip (s : List Char) : List Char :=
  ((s.dropWhile pyIsSpace).reverse.dropWhile pyIsSpace).reverse

/-- `Server.process_username` (server.py lines 160-172): decode the received
buffer, strip whitespace; if the result exceeds `MAX_USERNAME_SIZE`
characters return its first `MAX_USERNAME_SIZE` characters
(`username[:MAX_USERNAME_SIZE]`); if it is empty return
`f"User_{len(client_map)}"`; otherwise return it unchanged.
`regSize` is `len(self.client_map)` at the time of the call. -/
def process_username (data : List Byte) (regSize : Nat) : String :=
  let username := pyStrip (latin1Decode data)
  if MAX_USERNAME_SIZE < username.length then
    String.mk (username.take MAX_USERNAME_SIZE)
  else if username = [] then
    "User_" ++ toString regSize
  else
    String.mk username

/-- The observable result of the chat fan-out: the chat lines delivered,
the recipients handed to `disconnect_client` after a failed send, the leave
notices those nested disconnects emitted, and the registry they left
behind. -/
structure BroadcastResult where
  chatSent : List (Conn × String)
  disconnects : List Conn
  leaveSent : List (Conn × String)
  registry : Registry
deriving DecidableEq, Repr

/-- The chat fan-out of `handle_client` (chatroom.py lines 51-61): iterate
over the snapshot `targets = dict(client_map)`; for every connection other
than the sender, send `chatLine`; if that send raises `OSError`
(`fails conn`), call `disconnect_client(conn)` on the live registry and
continue with the next target. -/
def chat_broadcast (targets : Registry) (sender : Conn)
    (username text : String) (fails : Conn → Bool) (reg : Registry)
    (ts : String) : BroadcastResult :=
  match targets with
  | [] => ⟨[], [], [], reg⟩
  | (c, _u) :: rest =>
    if c ≠ sender then
      if fails c then
        let d := disconnect_client reg c ts none
        let r := chat_broadcast rest sender username text fails d.registry ts
        ⟨r.chatSent, c :: r.disconnects, d.sent ++ r.leaveSent, r.registry⟩
      else
        let r := chat_broadcast rest sender username text fails reg ts
        ⟨(c, chatLine ts username text) :: r.chatSent, r.disconnects,
          r.leaveSent, r.registry⟩
    else
      chat_broadcast rest sender username text fails reg ts

/-- The send loop shared by the join and leave notices: a bare
`connection.sendall(msg)` per entry with no per-recipient exception
handling, skipping `skip` (for the join notice, the joining client; the
leave fan-out skips nobody).  The first failing send raises `OSError` out
of the loop: `Except.error c` names the recipient whose send failed, and
no later recipient is reached. -/
def notifyLoop (entries : Registry) (skip : Option Conn) (msg : String)
    (fails : Conn → Bool) : Except Conn (List (Conn × String)) :=
  match entries with
  | [] => .ok []
  | (c, _u) :: rest =>
    if skip = some c then
      notifyLoop rest skip msg fails
    else if fails c then
      .error c
    else
      (notifyLoop rest skip msg fails).map (fun sends => (c, msg) :: sends)

/-- `Server.new_user_notification` (server.py lines 149-157): look up the
joining client's username in the map, then send the join notice to every
connection in the map other than the client, with no per-recipient error
handling.  (The source indexes `client_map[client]` directly; callers
invoke it only after a successful `add_client`, so the key is present —
`getD` stands for that guaranteed lookup.) -/
def new_user_notification (reg : Registry) (client : Conn) (ts : String)
    (fails : Conn → Bool) : Except Conn (List (Conn × String)) :=
  notifyLoop reg (some client) (joinMsg ts ((lookupKey reg client).getD ""))
    fails

/-- The leave fan-out of `disconnect_client` (server.py lines 116-121) under
possible write failure: a bare `sendall` of the leave notice to every
remaining connection; the first failure raises `OSError` out of
`disconnect_client` and no later recipient is reached. -/
def leave_broadcast (remaining : Registry) (msg : String)
    (fails : Conn → Bool) : Except Conn (List (Conn × String)) :=
  notifyLoop remaining none msg fails

/-- One `recv` outcome in the `Joined` loop of `handle_client`
(chatroom.py lines 30-42): a raised `ConnectionError`, a raised `OSError`,
or a byte buffer (empty bytes mean the peer closed). -/
inductive RecvEvent where
  | connError
  | osError
  | bytes (data : List Byte)

/-- The outcome of one iteration of the `Joined` loop: the session breaks
out of the loop (and `finally` disconnects the client), or it continues
after broadcasting. -/
inductive StepOutcome where
  | closed
  | continued (r : BroadcastResult)
deriving Repr

/-- One iteration of the `Joined` loop of `handle_client` (chatroom.py
lines 30-61): `ConnectionError` or `OSError` on `recv` breaks the loop;
empty bytes break the loop; otherwise the buffer is decoded —
`data.decode(ENCODING)` with `ISO-8859-1`; a decode failure would raise
`UnicodeDecodeError`, which the surrounding `except OSError` clause
(chatroom.py line 46) does not catch, so it would propagate and end the
session (the `none` branch) — and the decoded text is broadcast to all
other members of the snapshot. -/
def joined_step (ev : RecvEvent) (targets : Registry) (sender : Conn)
    (username : String) (fails : Conn → Bool) (reg : Registry)
    (ts : String) : StepOutcome :=
  match ev with
  | .connError => .closed
  | .osError => .closed
  | .bytes [] => .closed
  | .bytes data =>
    match latin1DecodeBytes (data.map Fin.val) with
    | none => .closed
    | some msg =>
      .continued
        (chat_broadcast targets sender username (String.mk msg) fails reg ts)

/-- The capacity-rejection path of `main` (chatroom.py lines 105-111):
`is_there_room` returned false, so the accepted connection is sent
`MAX_CLIENTS_REACHED_MSG` and then handed to `disconnect_client`.
Returns the sends made and the resulting registry. -/
def reject_client (reg : Registry) (client : Conn) (ts : String) :
    List (Conn × String) × Registry :=
  let d := disconnect_client reg client ts none
  ((client, MAX_CLIENTS_REACHED_MSG) :: d.sent, d.registry)

/-- A registry operation: an admission attempt (`add_client`) or a removal
(`client_map.pop` inside `disconnect_client`). -/
inductive Op where
  | addOp (c : Conn) (u : String)
  | removeOp (c : Conn)

/-- Run a sequence of registry operations left to right, starting from a
given registry. -/
def runOpsFrom (reg : Registry) : List Op → Registry
  | [] => reg
  | .addOp c u :: rest => runOpsFrom (add_client reg c u).2 rest
  | .removeOp c :: rest => runOpsFrom (removeKey reg c) rest

/-- Run a sequence of registry operations starting from the empty
registry. -/
def runOps (ops : List Op) : Registry :=
  runOpsFrom [] ops

/-! ## Lock-discipline traces

`chatroom.py` guards `client_map` with the global `CLIENTS_LOCK`.  To state
claims about what happens while the lock is held, each relevant code path is
written out as its sequence of lock and send events, read directly off the
source. -/

/-- An event in a code path: acquiring `CLIENTS_LOCK`, releasing it, or a
`sendall` to a connection. -/
inductive Ev where
  | acquire
  | release
  | send (dst : Conn)
deriving DecidableEq, Repr

/-- Whether some `send` event occurs while the lock depth is positive. -/
def sendWhileLocked (depth : Nat) : List Ev → Bool
  | [] => false
  | .acquire :: r => sendWhileLocked (depth + 1) r
  | .release :: r => sendWhileLocked (depth - 1) r
  | .send _ :: r => decide (0 < depth) || sendWhileLocked depth r

/-- The join path of `handle_client` when `add_client` succeeded
(chatroom.py lines 13-20): `with CLIENTS_LOCK: add_client(...)` (no send),
then `with CLIENTS_LOCK: new_user_notification(client);
send_welcome_msg(client, username)` — the join notice to every other
member and the welcome line to the client, all inside the second `with`
block. -/
def joinPathTrace (others : List Conn) (client : Conn) : List Ev :=
  [Ev.acquire, Ev.release, Ev.acquire] ++ others.map Ev.send ++
    [Ev.send client, Ev.release]

/-- The chat fan-out path of `handle_client` (chatroom.py lines 51-58):
`with CLIENTS_LOCK: targets = dict(client_map)` (snapshot, no send), then
the sends to the targets after the lock is released. -/
def chatFanoutTrace (targets : List Conn) : List Ev :=
  [Ev.acquire, Ev.release] ++ targets.map Ev.send

/-- The lock-held disconnect paths of `handle_client` (chatroom.py
lines 21-23 and 25-26): `with CLIENTS_LOCK: disconnect_client(client)`,
whose leave fan-out sends to every remaining member inside the `with`
block. -/
def lockedDisconnectTrace (remaining : List Conn) : List Ev :=
  [Ev.acquire] ++ remaining.map Ev.send ++ [Ev.release]

/-- The Python value passed to `Server.validate_port`: an `int`, or a value
of any other type. -/
inductive PyVal where
  | int (n : Int)
  | nonInt
deriving DecidableEq, Repr

/-- The exception classes `Server.validate_port` can raise. -/
inductive PortError where
  | typeError
  | valueError
deriving DecidableEq, Repr

/-- `Server.validate_port` (server.py lines 204-213): `TypeError` unless the
argument is an `int`; `ValueError` if `port < 0 or port > 65535`;
`ValueError` if `1 <= port <= 1023`; otherwise the port is returned
unchanged. -/
def validate_port : PyVal → Except PortError Int
  | .nonInt => .error .typeError
  | .int p =>
    if p < 0 ∨ 65535 < p then
      .error .valueError
    else if 1 ≤ p ∧ p ≤ 1023 then
      .error .valueError
    else
      .ok p

/-! ## Basic registry lemmas -/

theorem lookupKey_removeKey_self (reg : Registry) (c : Conn) :
    lookupKey (removeKey reg c) c = none := by
  have h : (removeKey reg c).find? (fun p => p.1 == c) = none := by
    rw [List.find?_eq_none]
    intro p hp
    have := List.of_mem_filter hp
    simp only [bne_iff_ne, ne_eq] at this
    simp [this]
  simp [lookupKey, h]

theorem removeKey_removeKey_self (reg : Registry) (c : Conn) :
    removeKey (removeKey reg c) c = removeKey reg c := by
  simp [removeKey, List.filter_filter]

theorem removeKey_eq_self (reg : Registry) (c : Conn)
    (h : lookupKey reg c = none) : removeKey reg c = reg := by
  rw [lookupKey] at h
  have h' := List.find?_eq_none.mp (by
    cases hf : reg.find? (fun p => p.1 == c) with
    | none => rfl
    | some q => rw [hf] at h; simp at h)
  refine List.filter_eq_self.mpr ?_
  intro p hp
  have := h' p hp
  simpa [bne_iff_ne] using this

theorem disconnect_client_registry (reg : Registry) (client : Conn)
    (ts : String) (serr : ShutdownOutcome) :
    (disconnect_client reg client ts serr).registry = removeKey reg client := by
  unfold disconnect_client
  split
  · rfl
  · cases lookupKey reg client with
    | none => rfl
    | some u =>
      simp only
      split <;> rfl

theorem disconnect_client_not_member (reg : Registry) (client : Conn)
    (ts : String) (serr : ShutdownOutcome)
    (hserr : benignShutdown serr = true)
    (h : lookupKey reg client = none) :
    disconnect_client reg client ts serr = ⟨removeKey reg client, [], false⟩ := by
  unfold disconnect_client
  rw [h, hserr]
  rfl

/-! ## Claim theorems -/

/-- **C10.** `validate_port` raises `TypeError` for every non-integer input;
for an integer port it raises `ValueError` exactly when the port is below 0,
above 65535, or between 1 and 1023 inclusive, and returns the port
unchanged exactly otherwise; in particular port 0 is accepted. -/
theorem validate_port_spec :
    validate_port PyVal.nonInt = Except.error PortError.typeError
    ∧ (∀ p : Int, validate_port (PyVal.int p) = Except.error PortError.valueError
        ↔ (p < 0 ∨ 65535 < p ∨ (1 ≤ p ∧ p ≤ 1023)))
    ∧ (∀ p : Int, validate_port (PyVal.int p) = Except.ok p
        ↔ ¬(p < 0 ∨ 65535 < p ∨ (1 ≤ p ∧ p ≤ 1023)))
    ∧ validate_port (PyVal.int 0) = Except.ok 0 := by
  refine ⟨rfl, ?_, ?_, rfl⟩
  · intro p
    simp only [validate_port]
    by_cases h1 : p < 0 ∨ 65535 < p
    · rw [if_pos h1]
      simp only [eq_self_iff_true, true_iff]
      omega
    · rw [if_neg h1]
      by_cases h2 : 1 ≤ p ∧ p ≤ 1023
      · rw [if_pos h2]
        simp only [eq_self_iff_true, true_iff]
        omega
      · rw [if_neg h2]
        constructor
        · intro hcontra
          exact absurd hcontra (by simp)
        · intro hdisj
          exact absurd hdisj (by omega)
  · intro p
    simp only [validate_port]
    by_cases h1 : p < 0 ∨ 65535 < p
    · rw [if_pos h1]
      constructor
      · intro hcontra
        exact absurd hcontra (by simp)
      · intro hno
        exact absurd h1 (by omega)
    · rw [if_neg h1]
      by_cases h2 : 1 ≤ p ∧ p ≤ 1023
      · rw [if_pos h2]
        constructor
        · intro hcontra
          exact absurd hcontra (by simp)
        · intro hno
          exact absurd (Or.inr (Or.inr h2)) hno
      · rw [if_neg h2]
        constructor
        · intro _
          omega
        · intro _
          rfl

/-- **C4.** `process_username` on the received bytes: after decoding and
stripping whitespace, a result longer than `MAX_USERNAME_SIZE` (20) is
truncated to exactly 20 characters; an empty result becomes
`User_<N>` with `N` the current registry size; any other result is kept
verbatim. -/
theorem process_username_spec (data : List Byte) (regSize : Nat) :
    (MAX_USERNAME_SIZE < (pyStrip (latin1Decode data)).length →
        process_username data regSize
          = String.mk ((pyStrip (latin1Decode data)).take MAX_USERNAME_SIZE)
        ∧ (process_username data regSize).length = MAX_USERNAME_SIZE)
    ∧ (pyStrip (latin1Decode data) = [] →
        process_username data regSize = "User_" ++ toString regSize)
    ∧ (pyStrip (latin1Decode data) ≠ [] →
        (pyStrip (latin1Decode data)).length ≤ MAX_USERNAME_SIZE →
        process_username data regSize = String.mk (pyStrip (latin1Decode data))) := by
  refine ⟨?_, ?_, ?_⟩
  · intro hlong
    unfold process_username
    rw [if_pos hlong]
    refine ⟨rfl, ?_⟩
    simp [List.length_take]
    omega
  · intro hempty
    unfold process_username
    rw [hempty]
    simp [MAX_USERNAME_SIZE]
  · intro hne hshort
    unfold process_username
    rw [if_neg (by omega), if_neg hne]

/-- Witness for C4 at three concrete inputs: 25 letters `a` are truncated
to 20; a single space strips to the synthesized `User_5`; `bob` is kept
verbatim. -/
theorem process_username_spec_witness :
    (MAX_USERNAME_SIZE
        < (pyStrip (latin1Decode (List.replicate 25 (97 : Fin 256)))).length
      ∧ process_username (List.replicate 25 (97 : Fin 256)) 5
          = String.mk ((pyStrip (latin1Decode (List.replicate 25 (97 : Fin 256)))).take
              MAX_USERNAME_SIZE)
      ∧ (process_username (List.replicate 25 (97 : Fin 256)) 5).length
          = MAX_USERNAME_SIZE)
    ∧ (pyStrip (latin1Decode [(32 : Fin 256)]) = []
      ∧ process_username [(32 : Fin 256)] 5 = "User_" ++ toString 5)
    ∧ (pyStrip (latin1Decode [(98 : Fin 256), (111 : Fin 256), (98 : Fin 256)]) ≠ []
      ∧ process_username [(98 : Fin 256), (111 : Fin 256), (98 : Fin 256)] 5
          = String.mk (pyStrip (latin1Decode [(98 : Fin 256), (111 : Fin 256), (98 : Fin 256)]))) := by
  refine ⟨⟨by decide, (process_username_spec (List.replicate 25 (97 : Fin 256)) 5).1 (by decide)⟩,
    ⟨by decide, (process_username_spec [(32 : Fin 256)] 5).2.1 (by decide)⟩,
    ⟨by decide, (process_username_spec [(98 : Fin 256), (111 : Fin 256), (98 : Fin 256)] 5).2.2
      (by decide) (by decide)⟩⟩

/-- **C6.** `disconnect_client` is idempotent: a second call on the
already-removed, already-closed connection raises no error, sends no second
leave notice and leaves the registry unchanged, provided the shutdown of
the already-closed socket fails only with the tolerated `ENOTCONN`/`EBADF`
errors; a shutdown error of any other class is re-raised. -/
theorem disconnect_idempotent (reg : Registry) (client : Conn)
    (ts ts2 : String) (serr1 serr2 : ShutdownOutcome)
    (h2 : benignShutdown serr2 = true) :
    (disconnect_client (disconnect_client reg client ts serr1).registry
        client ts2 serr2).raised = false
    ∧ (disconnect_client (disconnect_client reg client ts serr1).registry
        client ts2 serr2).sent = []
    ∧ (disconnect_client (disconnect_client reg client ts serr1).registry
        client ts2 serr2).registry
      = (disconnect_client reg client ts serr1).registry
    ∧ (disconnect_client (disconnect_client reg client ts serr1).registry
        client ts2 (some Errno.other)).raised = true := by
  rw [disconnect_client_registry]
  have hnone := lookupKey_removeKey_self reg client
  rw [disconnect_client_not_member _ _ _ _ h2 hnone]
  refine ⟨rfl, rfl, removeKey_removeKey_self reg client, ?_⟩
  unfold disconnect_client
  rw [hnone]
  rfl

/-- Witness for C6: disconnecting connection 1 twice from the one-member
registry, the second time with the socket already closed (`EBADF`). -/
theorem disconnect_idempotent_witness :
    benignShutdown (some Errno.ebadf) = true
    ∧ ((disconnect_client (disconnect_client [(1, "alice")] 1 "[t1]" none).registry
          1 "[t2]" (some Errno.ebadf)).raised = false
      ∧ (disconnect_client (disconnect_client [(1, "alice")] 1 "[t1]" none).registry
          1 "[t2]" (some Errno.ebadf)).sent = []
      ∧ (disconnect_client (disconnect_client [(1, "alice")] 1 "[t1]" none).registry
          1 "[t2]" (some Errno.ebadf)).registry
        = (disconnect_client [(1, "alice")] 1 "[t1]" none).registry
      ∧ (disconnect_client (disconnect_client [(1, "alice")] 1 "[t1]" none).registry
          1 "[t2]" (some Errno.other)).raised = true) :=
  ⟨by decide,
    disconnect_idempotent [(1, "alice")] 1 "[t1]" "[t2]" none (some Errno.ebadf)
      (by decide)⟩

/-- **C7.** When the registry is full, the rejection path sends the rejected
connection exactly the fixed capacity message and leaves the registry
untouched: the connection is never added, and no join or leave notice about
it is broadcast. -/
theorem reject_at_capacity (reg : Registry) (client : Conn) (ts : String)
    (_hfull : is_there_room reg = false)
    (hnot : lookupKey reg client = none) :
    reject_client reg client ts = ([(client, MAX_CLIENTS_REACHED_MSG)], reg) := by
  unfold reject_client
  rw [disconnect_client_not_member reg client ts none rfl hnot,
    removeKey_eq_self reg client hnot]

/-- Witness for C7: a registry of 100 members (`is_there_room` is false)
rejecting the fresh connection 0. -/
theorem reject_at_capacity_witness :
    is_there_room ((List.range MAX_CLIENTS).map (fun i => (i + 1, "u"))) = false
    ∧ lookupKey ((List.range MAX_CLIENTS).map (fun i => (i + 1, "u"))) 0 = none
    ∧ reject_client ((List.range MAX_CLIENTS).map (fun i => (i + 1, "u"))) 0 "[ts]"
      = ([(0, MAX_CLIENTS_REACHED_MSG)],
          (List.range MAX_CLIENTS).map (fun i => (i + 1, "u"))) :=
  ⟨by decide, by decide,
    reject_at_capacity _ 0 "[ts]" (by decide) (by decide)⟩

/-! ## Lemmas about insertion and capacity -/

theorem find?_map_update (c : Conn) (u : String) :
    ∀ reg : Registry, (reg.find? (fun p => p.1 == c)).isSome →
      (reg.map (fun p => if p.1 == c then (c, u) else p)).find?
          (fun p => p.1 == c) = some (c, u) := by
  intro reg
  induction reg with
  | nil => intro h; simp [List.find?] at h
  | cons a rest ih =>
    intro h
    rw [List.map_cons]
    by_cases hb : (a.1 == c) = true
    · rw [if_pos hb]
      exact List.find?_cons_of_pos _ (by simp)
    · rw [if_neg hb]
      have hb' : (a.1 == c) = false := by simpa using hb
      rw [List.find?_cons, hb']
      apply ih
      rw [List.find?_cons, hb'] at h
      exact h

theorem find?_append_new (c : Conn) (u : String) :
    ∀ reg : Registry, reg.find? (fun p => p.1 == c) = none →
      (reg ++ [(c, u)]).find? (fun p => p.1 == c) = some (c, u) := by
  intro reg
  induction reg with
  | nil => intro _; simp [List.find?]
  | cons a rest ih =>
    intro h
    rw [List.find?] at h
    cases hb : (a.1 == c) with
    | true => rw [hb] at h; simp at h
    | false =>
      rw [hb] at h
      simp only [List.cons_append, List.find?, hb]
      exact ih h

theorem lookupKey_insertKey (reg : Registry) (c : Conn) (u : String) :
    lookupKey (insertKey reg c u) c = some u := by
  unfold insertKey
  by_cases h : (lookupKey reg c).isSome
  · rw [if_pos h]
    have hs : (reg.find? (fun p => p.1 == c)).isSome := by
      rw [lookupKey] at h
      cases hf : reg.find? (fun p => p.1 == c) with
      | none => rw [hf] at h; simp at h
      | some q => simp [hf]
    unfold lookupKey
    rw [find?_map_update c u reg hs]
    rfl
  · rw [if_neg h]
    have hn : reg.find? (fun p => p.1 == c) = none := by
      cases hf : reg.find? (fun p => p.1 == c) with
      | none => rfl
      | some q => rw [lookupKey, hf] at h; simp at h
    unfold lookupKey
    rw [find?_append_new c u reg hn]
    rfl

theorem insertKey_length_le (reg : Registry) (c : Conn) (u : String) :
    (insertKey reg c u).length ≤ reg.length + 1 := by
  unfold insertKey
  split
  · simp
  · simp

theorem add_client_length (reg : Registry) (c : Conn) (u : String)
    (h : reg.length ≤ MAX_CLIENTS) :
    ((add_client reg c u).2).length ≤ MAX_CLIENTS := by
  unfold add_client
  by_cases h' : reg.length < MAX_CLIENTS
  · rw [if_pos h']
    have := insertKey_length_le reg c u
    simp only
    omega
  · rw [if_neg h']
    exact h

theorem runOpsFrom_length :
    ∀ (ops : List Op) (reg : Registry), reg.length ≤ MAX_CLIENTS →
      (runOpsFrom reg ops).length ≤ MAX_CLIENTS := by
  intro ops
  induction ops with
  | nil => intro reg h; exact h
  | cons op rest ih =>
    intro reg h
    cases op with
    | addOp c u => exact ih _ (add_client_length reg c u h)
    | removeOp c => exact ih _ (le_trans (List.length_filter_le _ _) h)

/-- **C2.** Along every sequence of add/remove operations from the empty
registry, the size never exceeds `MAX_CLIENTS`; `add_client` returns false
exactly when the size is already at the cap, mutating nothing in that case,
and otherwise returns true having inserted the binding. -/
theorem registry_capacity_invariant (ops : List Op) :
    (runOps ops).length ≤ MAX_CLIENTS
    ∧ (∀ c u, ((add_client (runOps ops) c u).1 = false
        ↔ (runOps ops).length = MAX_CLIENTS))
    ∧ (∀ c u, (add_client (runOps ops) c u).1 = false →
        (add_client (runOps ops) c u).2 = runOps ops)
    ∧ (∀ c u, (add_client (runOps ops) c u).1 = true →
        (add_client (runOps ops) c u).2 = insertKey (runOps ops) c u
        ∧ lookupKey (add_client (runOps ops) c u).2 c = some u) := by
  have hlen : (runOps ops).length ≤ MAX_CLIENTS :=
    runOpsFrom_length ops [] (Nat.zero_le _)
  refine ⟨hlen, ?_, ?_, ?_⟩
  · intro c u
    unfold add_client
    by_cases h : (runOps ops).length < MAX_CLIENTS
    · rw [if_pos h]
      simp only [Bool.true_eq_false, false_iff]
      omega
    · rw [if_neg h]
      simp only [true_iff]
      omega
  · intro c u hfalse
    unfold add_client at hfalse ⊢
    by_cases h : (runOps ops).length < MAX_CLIENTS
    · rw [if_pos h] at hfalse
      simp at hfalse
    · rw [if_neg h]
  · intro c u htrue
    unfold add_client at htrue ⊢
    by_cases h : (runOps ops).length < MAX_CLIENTS
    · rw [if_pos h]
      exact ⟨rfl, lookupKey_insertKey _ _ _⟩
    · rw [if_neg h] at htrue
      simp at htrue

/-- Witness for C2 on the one-operation sequence that admits connection 1:
the size bound holds, a further admission succeeds and actually inserts. -/
theorem registry_capacity_invariant_witness :
    (runOps [Op.addOp 1 "a"]).length ≤ MAX_CLIENTS
    ∧ (add_client (runOps [Op.addOp 1 "a"]) 2 "b").1 = true
    ∧ (add_client (runOps [Op.addOp 1 "a"]) 2 "b").2
        = insertKey (runOps [Op.addOp 1 "a"]) 2 "b"
    ∧ lookupKey (add_client (runOps [Op.addOp 1 "a"]) 2 "b").2 2 = some "b" := by
  have h := (registry_capacity_invariant [Op.addOp 1 "a"]).2.2.2 2 "b" (by decide)
  exact ⟨(registry_capacity_invariant [Op.addOp 1 "a"]).1, by decide, h.1, h.2⟩

/-! ## Lemmas about the leave fan-out -/

theorem countP_keys (c : Conn) (l : Registry) :
    l.countP (fun p => p.1 == c) = (regKeys l).count c := by
  rw [regKeys, List.count_eq_countP, List.countP_map]
  rfl

theorem regKeys_removeKey_nodup (reg : Registry) (client : Conn)
    (hnodup : (regKeys reg).Nodup) :
    (regKeys (removeKey reg client)).Nodup :=
  List.Nodup.sublist (List.Sublist.map Prod.fst (List.filter_sublist reg)) hnodup

/-- **C1.** A benign `disconnect_client` broadcasts the leave notice to
exactly the remaining members — each remaining member receives it exactly
once — when the connection was registered, and sends nothing at all when it
was not.  The username-nonempty hypothesis records that every username the
server ever registers is nonempty (see `process_username_spec`: an empty
name is replaced by `User_<N>`). -/
theorem leave_notice_iff_member (reg : Registry) (client : Conn)
    (ts : String) (serr : ShutdownOutcome)
    (hserr : benignShutdown serr = true)
    (hnodup : (regKeys reg).Nodup)
    (hne : ∀ p ∈ reg, p.2 ≠ "") :
    (∀ u, lookupKey reg client = some u →
        (disconnect_client reg client ts serr).sent
          = (removeKey reg client).map (fun p => (p.1, leaveMsg ts u))
        ∧ ∀ c ∈ regKeys (removeKey reg client),
            (disconnect_client reg client ts serr).sent.countP
              (fun s => s.1 == c) = 1)
    ∧ (lookupKey reg client = none →
        (disconnect_client reg client ts serr).sent = []) := by
  constructor
  · intro u hu
    have hune : u ≠ "" := by
      rw [lookupKey] at hu
      cases hf : reg.find? (fun p => p.1 == client) with
      | none => rw [hf] at hu; simp at hu
      | some q =>
        rw [hf] at hu
        simp at hu
        have hqmem := List.mem_of_find?_eq_some hf
        exact hu ▸ hne q hqmem
    have hsent : (disconnect_client reg client ts serr).sent
        = (removeKey reg client).map (fun p => (p.1, leaveMsg ts u)) := by
      unfold disconnect_client
      rw [hu, hserr]
      simp [hune]
    refine ⟨hsent, ?_⟩
    intro c hc
    rw [hsent, List.countP_map]
    have hcp : (removeKey reg client).countP
        ((fun s : Conn × String => s.1 == c) ∘ fun p => (p.1, leaveMsg ts u))
        = (regKeys (removeKey reg client)).count c := countP_keys c _
    rw [hcp]
    exact List.count_eq_one_of_mem (regKeys_removeKey_nodup reg client hnodup) hc
  · intro hnone
    rw [disconnect_client_not_member reg client ts serr hserr hnone]

/-- Witness for C1: disconnecting member 1 of the two-member registry sends
exactly one leave notice to member 2; disconnecting the unregistered
connection 3 sends nothing. -/
theorem leave_notice_iff_member_witness :
    benignShutdown none = true
    ∧ (regKeys [(1, "alice"), (2, "bob")]).Nodup
    ∧ (∀ p ∈ ([(1, "alice"), (2, "bob")] : Registry), p.2 ≠ "")
    ∧ (disconnect_client [(1, "alice"), (2, "bob")] 1 "[ts]" none).sent
        = [(2, leaveMsg "[ts]" "alice")]
    ∧ (disconnect_client [(1, "alice"), (2, "bob")] 3 "[ts]" none).sent = [] := by
  have h1 := (leave_notice_iff_member [(1, "alice"), (2, "bob")] 1 "[ts]" none
    (by decide) (by decide) (by decide)).1 "alice" (by decide)
  have h2 := (leave_notice_iff_member [(1, "alice"), (2, "bob")] 3 "[ts]" none
    (by decide) (by decide) (by decide)).2 (by decide)
  exact ⟨by decide, by decide, by decide, h1.1, h2⟩

/-! ## Lemmas about the chat fan-out -/

theorem chat_broadcast_chatSent (targets : Registry) (sender : Conn)
    (username text ts : String) (fails : Conn → Bool) :
    ∀ reg, (chat_broadcast targets sender username text fails reg ts).chatSent
      = (targets.filter (fun p => p.1 != sender && !(fails p.1))).map
          (fun p => (p.1, chatLine ts username text)) := by
  induction targets with
  | nil => intro reg; rfl
  | cons hd rest ih =>
    intro reg
    obtain ⟨c, u⟩ := hd
    by_cases hcs : c ≠ sender
    · by_cases hf : fails c
      · simp [chat_broadcast, hcs, hf, ih, List.filter_cons]
      · simp [chat_broadcast, hcs, hf, ih, List.filter_cons]
    · simp only [not_not] at hcs
      simp [chat_broadcast, hcs, ih, List.filter_cons]

theorem chat_broadcast_disconnects (targets : Registry) (sender : Conn)
    (username text ts : String) (fails : Conn → Bool) :
    ∀ reg, (chat_broadcast targets sender username text fails reg ts).disconnects
      = (targets.filter (fun p => p.1 != sender && fails p.1)).map Prod.fst := by
  induction targets with
  | nil => intro reg; rfl
  | cons hd rest ih =>
    intro reg
    obtain ⟨c, u⟩ := hd
    by_cases hcs : c ≠ sender
    · by_cases hf : fails c
      · simp [chat_broadcast, hcs, hf, ih, List.filter_cons]
      · simp [chat_broadcast, hcs, hf, ih, List.filter_cons]
    · simp only [not_not] at hcs
      simp [chat_broadcast, hcs, ih, List.filter_cons]

theorem chat_broadcast_not_to_sender (targets : Registry) (sender : Conn)
    (username text ts : String) (fails : Conn → Bool) (reg : Registry)
    (m : String) :
    (sender, m) ∉ (chat_broadcast targets sender username text fails reg ts).chatSent := by
  intro hmem
  rw [chat_broadcast_chatSent] at hmem
  obtain ⟨p, hp, heq⟩ := List.mem_map.mp hmem
  have hfil := List.of_mem_filter hp
  have h1 : p.1 ≠ sender := by
    simp only [Bool.and_eq_true, bne_iff_ne, ne_eq] at hfil
    exact hfil.1
  rw [Prod.mk.injEq] at heq
  exact h1 heq.1

/-- **C3.** The chat fan-out delivers the formatted line
`<ts> <username>: <text>` to every snapshot entry other than the sender,
and under no failure pattern is the line ever delivered to the sender
itself. -/
theorem chat_relay_spec (targets : Registry) (sender : Conn)
    (username text ts : String) (reg : Registry) :
    (chat_broadcast targets sender username text (fun _ => false) reg ts).chatSent
      = (targets.filter (fun p => p.1 != sender)).map
          (fun p => (p.1, chatLine ts username text))
    ∧ ∀ (fails : Conn → Bool) (reg2 : Registry) (m : String),
        (sender, m) ∉ (chat_broadcast targets sender username text fails reg2 ts).chatSent := by
  constructor
  · rw [chat_broadcast_chatSent]
    have hfun : (fun p : Conn × String => p.1 != sender && !((fun _ : Conn => false) p.1))
        = (fun p : Conn × String => p.1 != sender) := by
      funext p
      simp
    rw [hfun]
  · intro fails reg2 m
    exact chat_broadcast_not_to_sender targets sender username text ts fails reg2 m

/-- Counterexample to **C5** as stated: the join-notice fan-out
(`new_user_notification`) and the leave fan-out of `disconnect_client` have
no per-recipient error handling, so a write failure at the first recipient
(connection 1) raises out of the loop (`Except.error 1`) and connection 2
never receives the notice — delivery does not continue. -/
theorem notice_fanout_abort_counterexample :
    new_user_notification [(0, "Link"), (1, "A"), (2, "B")] 0 "[ts]"
        (fun c => c == 1) = Except.error 1
    ∧ leave_broadcast [(1, "A"), (2, "B")] (leaveMsg "[ts]" "Link")
        (fun c => c == 1) = Except.error 1 :=
  ⟨rfl, rfl⟩

/-- **C5 amended.** Only the chat fan-out of `handle_client` tolerates
per-recipient write failure: a failed recipient is disconnected and
delivery continues to every other non-failing recipient; the join and
leave notices are instead aborted by their first failing send (see
`notice_fanout_abort_counterexample`). -/
theorem chat_fanout_failure_tolerance (targets : Registry) (sender : Conn)
    (username text ts : String) (fails : Conn → Bool) (reg : Registry) :
    (chat_broadcast targets sender username text fails reg ts).chatSent
      = (targets.filter (fun p => p.1 != sender && !(fails p.1))).map
          (fun p => (p.1, chatLine ts username text))
    ∧ (chat_broadcast targets sender username text fails reg ts).disconnects
      = (targets.filter (fun p => p.1 != sender && fails p.1)).map Prod.fst :=
  ⟨chat_broadcast_chatSent targets sender username text ts fails reg,
    chat_broadcast_disconnects targets sender username text ts fails reg⟩

/-! ## Decode totality in the Joined loop -/

theorem latin1DecodeBytes_total (data : List Byte) :
    latin1DecodeBytes (data.map Fin.val) = some (latin1Decode data) := by
  unfold latin1DecodeBytes latin1Decode
  rw [if_pos]
  · rw [List.map_map]
    rfl
  · simp only [List.all_eq_true, List.mem_map]
    rintro x ⟨b, _, rfl⟩
    exact decide_eq_true b.isLt

/-- **C8.** No byte string received in the Joined loop can fail to decode —
`ISO-8859-1` decoding is total — so a decode problem never closes the
session: every nonempty received buffer leads the loop to broadcast and
continue, never to break out and disconnect. -/
theorem decode_never_closes_session (data : List Byte) (targets : Registry)
    (sender : Conn) (username : String) (fails : Conn → Bool)
    (reg : Registry) (ts : String) (hdata : data ≠ []) :
    latin1DecodeBytes (data.map Fin.val) = some (latin1Decode data)
    ∧ joined_step (.bytes data) targets sender username fails reg ts
        ≠ StepOutcome.closed := by
  refine ⟨latin1DecodeBytes_total data, ?_⟩
  cases data with
  | nil => exact absurd rfl hdata
  | cons b bs =>
    simp only [joined_step, latin1DecodeBytes_total (b :: bs)]
    intro hcontra
    exact StepOutcome.noConfusion hcontra

/-- Witness for C8 on the one-byte buffer `h`. -/
theorem decode_never_closes_session_witness :
    ([(104 : Fin 256)] : List Byte) ≠ []
    ∧ (latin1DecodeBytes (([(104 : Fin 256)] : List Byte).map Fin.val)
        = some (latin1Decode [(104 : Fin 256)])
      ∧ joined_step (.bytes [(104 : Fin 256)]) [] 0 "u" (fun _ => false) [] "[ts]"
          ≠ StepOutcome.closed) :=
  ⟨by decide,
    decode_never_closes_session [(104 : Fin 256)] [] 0 "u" (fun _ => false) []
      "[ts]" (by decide)⟩

/-! ## Lock discipline -/

theorem sendWhileLocked_sends_only (l : List Conn) :
    sendWhileLocked 0 (l.map Ev.send) = false := by
  induction l with
  | nil => rfl
  | cons a t ih => simp [sendWhileLocked, ih]

theorem sendWhileLocked_send_pos (d : Nat) (hd : 0 < d) :
    ∀ (l : List Conn) (x : Conn) (rest : List Ev),
      sendWhileLocked d (l.map Ev.send ++ Ev.send x :: rest) = true := by
  intro l
  induction l with
  | nil => intro x rest; simp [sendWhileLocked, hd]
  | cons a t ih => intro x rest; simp [sendWhileLocked, hd]

/-- Counterexample to **C9** as stated: even with no other member present,
the join path of `handle_client` performs the welcome-message send while
holding `CLIENTS_LOCK` (chatroom.py lines 18-20). -/
theorem join_notice_under_lock_counterexample :
    sendWhileLocked 0 (joinPathTrace [] 0) = true := rfl

/-- **C9 amended.** Only the chat fan-out observes snapshot-then-release:
its sends happen with the lock released.  The join notice and the welcome
message are sent while `CLIENTS_LOCK` is held, and so are the leave notices
of the `disconnect_client` calls that `handle_client` makes inside `with
CLIENTS_LOCK` blocks (whenever there is a remaining member to notify). -/
theorem lock_discipline (targets others remaining : List Conn) (client : Conn)
    (hrem : remaining ≠ []) :
    sendWhileLocked 0 (chatFanoutTrace targets) = false
    ∧ sendWhileLocked 0 (joinPathTrace others client) = true
    ∧ sendWhileLocked 0 (lockedDisconnectTrace remaining) = true := by
  refine ⟨?_, ?_, ?_⟩
  · exact sendWhileLocked_sends_only targets
  · exact sendWhileLocked_send_pos 1 (by decide) others client [Ev.release]
  · cases remaining with
    | nil => exact absurd rfl hrem
    | cons a t => simp [lockedDisconnectTrace, sendWhileLocked]

/-- Witness for C9 (amended): concrete traces with two chat targets, one
other member on the join path, and one remaining member at disconnect. -/
theorem lock_discipline_witness :
    ([5] : List Conn) ≠ []
    ∧ (sendWhileLocked 0 (chatFanoutTrace [3, 4]) = false
      ∧ sendWhileLocked 0 (joinPathTrace [7] 9) = true
      ∧ sendWhileLocked 0 (lockedDisconnectTrace [5]) = true) :=
  ⟨by decide, lock_discipline [3, 4] [7] [5] 9 (by decide)⟩

end Chatroom
